import Mathlib

/-!
Shallow embedding of the credit-risk-rating rating-system core
(src/credit_risk_rating/rating/system/_mappings.py, _base.py,
_one_dimensional.py, _two_dimensional.py) and proofs about its behaviour.

Python values are modelled by an inductive type; IEEE doubles are modelled
as rationals (every concrete literal appearing in the claims is exact in
both representations, and the one arithmetic example, 0.01 * 0.1 * 1000000.0,
equals 1000.0 exactly under IEEE double arithmetic as well).  Python dicts
are association lists that keep insertion order; fallible operations return
Except values.
-/

namespace CreditRiskRating

/-- Python runtime values used by the rating-system core: ints, bools,
strings, floats (modelled as rationals) and None. -/
inductive PyVal where
  | int : Int → PyVal
  | bool : Bool → PyVal
  | str : String → PyVal
  | float : ℚ → PyVal
  | pynone : PyVal
deriving DecidableEq

/-- Python exceptions raised by the modelled code, including the custom
exception classes of credit_risk_rating.exceptions. -/
inductive PyError where
  | typeError : String → PyError
  | attributeError : String → PyError
  | keyError : PyVal → PyError
  | importError : String → PyError
  | metadataError : String → PyError
  | ratingScaleError : String → PyError
  | ratingValidationError : String → PyError
  | ratingScaleInputError : String → PyError
deriving DecidableEq

/-- Python dict modelled as an insertion-ordered association list. -/
abbrev PyDict := List (PyVal × PyVal)

/-- Python type(v).__name__ for the modelled values. -/
def pyTypeName : PyVal → String
  | .int _ => "int"
  | .bool _ => "bool"
  | .str _ => "str"
  | .float _ => "float"
  | .pynone => "NoneType"

/-- Python isinstance(v, (str, int)).  True for bools as well, because bool
is a subclass of int in Python. -/
def isInstStrOrInt : PyVal → Bool
  | .str _ => true
  | .int _ => true
  | .bool _ => true
  | _ => false

/-- Python isinstance(v, float).  Bools and ints are not floats. -/
def isInstFloat : PyVal → Bool
  | .float _ => true
  | _ => false

/-- Embedding of the _ImmutableMapping.__init__ line
self._data = dict(data) if data else \x7b\x7d : a falsy argument (None or an
empty dict) yields an empty dict, otherwise a copy of the argument. -/
def dictOrEmpty : Option PyDict → PyDict
  | some d => if d.isEmpty then [] else d
  | Option.none => []

/-- The two concrete container classes of _mappings.py.  Both are direct
subclasses of the abstract base _ImmutableMapping and are siblings of each
other; the abstract base itself cannot be instantiated. -/
inductive ContainerClass where
  | ratingScaleC
  | metadataC
deriving DecidableEq

/-- The __name__ of a container class. -/
def containerClassName : ContainerClass → String
  | .ratingScaleC => "RatingScale"
  | .metadataC => "Metadata"

/-- State of an _ImmutableMapping instance: its class, the _data attribute,
and whether the _frozen attribute has been set (the last statement of
a completed __init__). -/
structure Container where
  cls : ContainerClass
  data : PyDict
  frozen : Bool
deriving DecidableEq

/-- Outcome of a Python attribute assignment: either the assignment is
delegated to the default object.__setattr__ (and succeeds), or an
exception is raised. -/
inductive SetattrOutcome where
  | assigned : String → PyVal → SetattrOutcome
  | raised : PyError → SetattrOutcome
deriving DecidableEq

/-- Embedding of _ImmutableMapping.__setattr__ (lines 88-98): attribute
assignment is delegated to object.__setattr__ while the _frozen attribute
has not been set, and raises AttributeError afterwards. -/
def immutableMapping_setattr (self : Container) (name : String) (value : PyVal) :
    SetattrOutcome :=
  if self.frozen then
    .raised (.attributeError (containerClassName self.cls ++
      " objects are immutable. Use add() or similar methods to create a new instance."))
  else
    .assigned name value

/-- Lookup in a Python dict. -/
def pyDictLookup (d : PyDict) (k : PyVal) : Option PyVal :=
  (d.find? (fun kv => decide (kv.1 = k))).map Prod.snd

/-- Python dict equality: order-insensitive equality of the key-value pairs. -/
def pyDictEq (d1 d2 : PyDict) : Bool :=
  (d1.all (fun kv => decide (pyDictLookup d2 kv.1 = some kv.2))) &&
  (d2.all (fun kv => decide (pyDictLookup d1 kv.1 = some kv.2)))

/-- Embedding of Python isinstance(obj, target) restricted to the
instantiable container classes: RatingScale and Metadata are siblings (each
derives directly from the abstract base _ImmutableMapping), so an instance
of one is an instance of the other class exactly when the classes agree. -/
def containerIsInstanceOf (objCls target : ContainerClass) : Bool :=
  decide (objCls = target)

/-- Embedding of _ImmutableMapping.__eq__ (lines 116-120): not
isinstance(other, self.__class__) gives False, otherwise the _data dicts
are compared. -/
def immutableMapping_eq (self other : Container) : Bool :=
  if containerIsInstanceOf other.cls self.cls then pyDictEq self.data other.data
  else false

/-! ### RatingScale (lines 219-433 of _mappings.py) -/

/-- The grade_errors list collected by RatingScale._validate_data
(lines 269-272): grades that are not str or int instances, in dict order. -/
def ratingScale_grade_errors (data : PyDict) : List PyVal :=
  (data.filter (fun kv => !isInstStrOrInt kv.1)).map Prod.fst

/-- The value_errors list collected by RatingScale._validate_data
(lines 269-274): values that are not float instances, in dict order. -/
def ratingScale_value_errors (data : PyDict) : List PyVal :=
  (data.filter (fun kv => !isInstFloat kv.2)).map Prod.snd

/-- The TypeError message Python raises when str.join receives a list whose
first item is itself a list.  RatingScale._validate_data builds its message
with a join applied to the one-element list [grade_errors] (line 280), so
whenever the raise statement runs, this join TypeError is raised instead of
the intended message, and the offending grades and values are never
reported. -/
def joinTypeErrorMsg : String := "sequence item 0: expected str instance, list found"

/-- Embedding of RatingScale._validate_data (lines 267-282): when either
error list is non-empty the raise statement runs, and building its message
itself raises the join TypeError. -/
def ratingScale_validate_data (data : PyDict) : Except PyError Unit :=
  if (ratingScale_grade_errors data).isEmpty && (ratingScale_value_errors data).isEmpty then
    Except.ok ()
  else
    Except.error (.typeError joinTypeErrorMsg)

/-- Abstract methods still unimplemented in class RatingScale: the class
body re-declares _post_init_setup with the abstractmethod decorator
(lines 262-265), so the set of abstract methods of RatingScale is
non-empty and Python refuses to instantiate the class. -/
def ratingScaleAbstractMethods : List String := ["_post_init_setup"]

/-- Abstract methods still unimplemented in class Metadata: it overrides
both _validate_data and _post_init_setup concretely, so none remain. -/
def metadataAbstractMethods : List String := []

/-- The TypeError raised by type.__call__ when a class with abstract
methods is instantiated. -/
def abstractClassError (cls : String) (methods : List String) : PyError :=
  .typeError ("Cannot instantiate abstract class " ++ cls ++
    " with abstract methods " ++ String.intercalate ", " methods)

/-- Embedding of the construction RatingScale(rating_scale): Python first
rejects instantiation of an abstract class; only then would __init__ copy
the data, run _validate_data and freeze the instance. -/
def ratingScale_init (rating_scale : Option PyDict) : Except PyError Container :=
  if ratingScaleAbstractMethods.isEmpty then do
    let data := dictOrEmpty rating_scale
    let _ ← ratingScale_validate_data data
    pure ⟨.ratingScaleC, data, true⟩
  else
    Except.error (abstractClassError "RatingScale" ratingScaleAbstractMethods)

/-! ### Metadata (lines 435-630 of _mappings.py) -/

/-- ASCII start character of a Python identifier. -/
def isIdentStart (c : Char) : Bool := c.isAlpha || c == '_'

/-- ASCII continuation character of a Python identifier. -/
def isIdentCont (c : Char) : Bool := c.isAlphanum || c == '_'

/-- Python str.isidentifier, on the ASCII fragment used by this repository. -/
def pyIsIdentifier (s : String) : Bool :=
  match s.data with
  | [] => false
  | c :: cs => isIdentStart c && cs.all isIdentCont

/-- The key loop of Metadata._validate_data (lines 482-492).  For a
non-string key the code sets an error message and then calls
key.isidentifier(), which raises AttributeError because non-strings have no
such method.  For a string key that is not an identifier, the message
appended to key_errors is always the must-be-string text (line 491), not
the per-key identifier reason computed just above it. -/
def metadata_key_errors : List PyVal → Except PyError (List String)
  | [] => Except.ok []
  | .str s :: ks => do
      let rest ← metadata_key_errors ks
      if pyIsIdentifier s then pure rest
      else pure ("Metadata key must be string, got str" :: rest)
  | k :: _ =>
      Except.error (.attributeError (pyTypeName k ++ " object has no attribute isidentifier"))

/-- Embedding of Metadata._validate_data (lines 480-496).  The final raise
statement (line 493) is not guarded by any check of key_errors, so once the
key loop finishes, MetadataError is raised unconditionally - even when
every key is a valid identifier. -/
def metadata_validate_data (data : PyDict) : Except PyError Unit := do
  let keyErrors ← metadata_key_errors (data.map Prod.fst)
  Except.error (.metadataError
    ("Some metadata keys are not strings and valid Python identifiers." ++
      "Metadata key errors: " ++ String.intercalate ", " keyErrors ++ "."))

/-- Embedding of the construction Metadata(metadata): the class is concrete
so __init__ runs; it copies the data and calls _validate_data, which always
raises, so the attribute projection and the freeze are never reached. -/
def metadata_init (metadata : Option PyDict) : Except PyError Container :=
  if metadataAbstractMethods.isEmpty then do
    let data := dictOrEmpty metadata
    let _ ← metadata_validate_data data
    pure ⟨.metadataC, data, true⟩
  else
    Except.error (abstractClassError "Metadata" metadataAbstractMethods)

/-! ### Heap model for the to_dict copy semantics

The claim that the mapping returned by to_dict is a fresh copy is about
object identity, so dicts are given addresses in a small store.
_ImmutableMapping.to_dict (lines 138-146) returns dict(self._data), which
constructs a new dict object holding the same entries; this is modelled as
allocation of a fresh cell. -/

/-- A store of dict objects; the address of a dict is its index. -/
abbrev DictStore := List PyDict

/-- Read the dict at an address. -/
def storeRead : DictStore → Nat → PyDict
  | [], _ => []
  | d :: _, 0 => d
  | _ :: rest, n + 1 => storeRead rest n

/-- Mutate the dict at an address in place. -/
def storeWrite : DictStore → Nat → PyDict → DictStore
  | [], _, _ => []
  | _ :: rest, 0, d => d :: rest
  | x :: rest, n + 1, d => x :: storeWrite rest n d

/-- A container whose _data attribute is a reference into the store. -/
structure HeapContainer where
  cls : ContainerClass
  dataAddr : Nat
  frozen : Bool
deriving DecidableEq

/-- Embedding of _ImmutableMapping.to_dict: dict(self._data) allocates a
new dict, so the store grows by one fresh cell holding a copy of the
entries, and the address of that fresh cell is returned. -/
def container_to_dict (st : DictStore) (c : HeapContainer) : DictStore × Nat :=
  (st ++ [storeRead st c.dataAddr], st.length)

/-! ### Module-level name resolution

_one_dimensional.py line 42 and _two_dimensional.py lines 46-50 import
names that the source modules no longer define (the container class was
renamed from RatingMap to RatingScale, as the package __init__ records, and
_base.py defines TwoDimensionsalRatingSystemConfig while exporting the name
PDLGDRatingSystemConfig), so both modules fail at import time. -/

/-- Top-level names defined by _mappings.py. -/
def mappingsModuleNames : List String :=
  ["RatingGrade", "K", "V", "_ImmutableMapping", "RatingScale", "Metadata"]

/-- Top-level names defined by _base.py. -/
def baseModuleNames : List String :=
  ["RatingSystemConfig", "TwoDimensionsalRatingSystemConfig", "BaseRatingSystem"]

/-- Whether a from-import succeeds: every requested name must be defined
in the source module. -/
def importSucceeds (defined requested : List String) : Bool :=
  requested.all (fun n => defined.contains n)

/-- The from-import of _one_dimensional.py line 42: Metadata, RatingGrade
and RatingMap from _mappings. -/
def oneDimensionalImportOk : Bool :=
  importSucceeds mappingsModuleNames ["Metadata", "RatingGrade", "RatingMap"]

/-- The from-imports of _two_dimensional.py lines 46-50: BaseRatingSystem
and PDLGDRatingSystemConfig from _base, then Metadata, RatingGrade and
RatingMap from _mappings. -/
def twoDimensionalImportOk : Bool :=
  importSucceeds baseModuleNames ["BaseRatingSystem", "PDLGDRatingSystemConfig"] &&
  importSucceeds mappingsModuleNames ["Metadata", "RatingGrade", "RatingMap"]

/-- ImportError message for the one-dimensional module. -/
def oneDimImportErrorMsg : String :=
  "cannot import name RatingMap from credit_risk_rating.rating.system._mappings"

/-- ImportError message for the two-dimensional module. -/
def twoDimImportErrorMsg : String :=
  "cannot import name PDLGDRatingSystemConfig from credit_risk_rating.rating.system._base"

/-! ### Rating-system instances -/

/-- Configuration of a one-dimensional rating-system class
(RatingSystemConfig in _base.py). -/
structure RatingSystemConfig where
  required_grades : List PyVal
  required_metadata : List String
deriving DecidableEq

/-- Attribute state of a OneDimensionalRatingSystem instance, as set up by
OneDimensionalRatingSystem.__init__ and BaseRatingSystem.__init__. -/
structure OneDimSystem where
  rating_scale : Container
  metadata : Container
deriving DecidableEq

/-- Attribute state of a PDLGDRatingSystem instance. -/
structure PDLGDSystemObj where
  pd_rating_scale : Container
  lgd_rating_scale : Container
  metadata : Container
deriving DecidableEq

/-- Embedding of attribute assignment on a rating-system instance: neither
BaseRatingSystem nor OneDimensionalRatingSystem nor PDLGDRatingSystem
overrides __setattr__ (in contrast to _ImmutableMapping), so Python uses
the default object attribute assignment, which always succeeds. -/
def ratingSystem_setattr (_self : OneDimSystem) (name : String) (value : PyVal) :
    SetattrOutcome :=
  .assigned name value

/-- Embedding of OneDimensionalRatingSystem construction.  The defining
module must import first (it does not: the name RatingMap is not defined by
_mappings.py).  Past that, __init__ normalizes the scale through
RatingMap.from_dict, i.e. RatingScale construction, then
BaseRatingSystem.__init__ builds the Metadata container.  The required
metadata and required-grade validations that follow in the source are
unreachable, because both container constructions above always fail. -/
def oneDimensional_init (_config : RatingSystemConfig)
    (rating_scale metadata : Option PyDict) : Except PyError OneDimSystem :=
  if oneDimensionalImportOk then do
    let scaleC ← ratingScale_init rating_scale
    let metaC ← metadata_init metadata
    pure ⟨scaleC, metaC⟩
  else
    Except.error (.importError oneDimImportErrorMsg)

/-- Embedding of PDLGDRatingSystem construction; same structure as the
one-dimensional case, with two scales. -/
def pdlgd_init (pd_rating_scale lgd_rating_scale metadata : Option PyDict) :
    Except PyError PDLGDSystemObj :=
  if twoDimensionalImportOk then do
    let pdC ← ratingScale_init pd_rating_scale
    let lgdC ← ratingScale_init lgd_rating_scale
    let metaC ← metadata_init metadata
    pure ⟨pdC, lgdC, metaC⟩
  else
    Except.error (.importError twoDimImportErrorMsg)

/-- The dictionary shape produced by OneDimensionalRatingSystem.to_dict
(lines 289-315) and consumed by from_dict (lines 317-344). -/
structure SystemExportDict where
  rating_system_type : Option String
  rating_scale : Option PyDict
  metadata : Option PyDict
deriving DecidableEq

/-- Embedding of OneDimensionalRatingSystem.to_dict. -/
def oneDimensional_to_dict (s : OneDimSystem) : SystemExportDict :=
  ⟨some "OneDimensionalRatingSystem", some s.rating_scale.data, some s.metadata.data⟩

/-- Embedding of OneDimensionalRatingSystem.from_dict: reads the
rating_scale and metadata keys, defaulting to an empty mapping, and calls
the constructor. -/
def oneDimensional_from_dict (config : RatingSystemConfig) (data : SystemExportDict) :
    Except PyError OneDimSystem :=
  oneDimensional_init config (some (data.rating_scale.getD []))
    (some (data.metadata.getD []))

/-- The dictionary shape produced by PDLGDRatingSystem.to_dict
(lines 451-479) and consumed by from_dict (lines 481-511). -/
structure PDLGDExportDict where
  rating_system_type : Option String
  pd_rating_scale : Option PyDict
  lgd_rating_scale : Option PyDict
  metadata : Option PyDict
deriving DecidableEq

/-- Embedding of PDLGDRatingSystem.to_dict. -/
def pdlgd_to_dict (s : PDLGDSystemObj) : PDLGDExportDict :=
  ⟨some "PDLGDRatingSystem", some s.pd_rating_scale.data,
    some s.lgd_rating_scale.data, some s.metadata.data⟩

/-- Embedding of PDLGDRatingSystem.from_dict. -/
def pdlgd_from_dict (data : PDLGDExportDict) : Except PyError PDLGDSystemObj :=
  pdlgd_init (some (data.pd_rating_scale.getD [])) (some (data.lgd_rating_scale.getD []))
    (some (data.metadata.getD []))

/-! ### Expected loss (PDLGDRatingSystem.get_expected_loss, lines 413-449)

The method only reads the two owned scales, so it is modelled over the
validated content of a scale: a finite map from grades to float values. -/

/-- Validated content of a RatingScale: grades mapped to float values. -/
abbrev ScaleData := List (PyVal × ℚ)

/-- The dict lookup self._data[grade] performed by get_grade_value /
__getitem__ on a scale. -/
def scaleFind (d : ScaleData) (k : PyVal) : Option (PyVal × ℚ) :=
  d.find? (fun kv => decide (kv.1 = k))

/-- Grade lookup on a scale: KeyError when the grade is absent. -/
def scaleGet (d : ScaleData) (k : PyVal) : Except PyError ℚ :=
  match scaleFind d k with
  | some kv => Except.ok kv.2
  | Option.none => Except.error (.keyError k)

/-- The two scales read by get_expected_loss. -/
structure PDLGDScales where
  pd_rating_scale : ScaleData
  lgd_rating_scale : ScaleData
deriving DecidableEq

/-- Embedding of PDLGDRatingSystem.get_expected_loss: look up the PD value,
look up the LGD value, return their product with the exposure at default. -/
def get_expected_loss (s : PDLGDScales) (pd_rating lgd_rating : PyVal) (ead : ℚ) :
    Except PyError ℚ :=
  match scaleGet s.pd_rating_scale pd_rating with
  | Except.error e => Except.error e
  | Except.ok pdValue =>
    match scaleGet s.lgd_rating_scale lgd_rating with
    | Except.error e => Except.error e
    | Except.ok lgdValue => Except.ok (pdValue * lgdValue * ead)

/-- get_expected_loss called without the ead argument, whose default is 1.0. -/
def get_expected_loss_default (s : PDLGDScales) (pd_rating lgd_rating : PyVal) :
    Except PyError ℚ :=
  get_expected_loss s pd_rating lgd_rating 1

/-- The two-dimensional scales of Scenario C of the specification:
pd maps 1 to 0.01 and 2 to 0.05, lgd maps A to 0.1 and B to 0.2. -/
def scenarioC : PDLGDScales :=
  ⟨[(.int 1, 1/100), (.int 2, 1/20)], [(.str "A", 1/10), (.str "B", 1/5)]⟩

/-! ### Concrete data used by the claims -/

/-- Scenario A rating scale input: 1 maps to 0.01, 2 to 0.05, 3 to 0.10. -/
def scenarioAData : PyDict :=
  [(.int 1, .float (1/100)), (.int 2, .float (1/20)), (.int 3, .float (1/10))]

/-- A rating-scale input with a float grade, used to probe error reporting. -/
def floatGradeData : PyDict := [(.float (3/2), .float (1/100))]

/-! ### Claims -/

/-- C1: the claim says Metadata construction succeeds on identifier keys and
exposes them as attributes, and fails with a per-key identifier error
otherwise.  In the code, Metadata._validate_data ends in an unconditional
raise, so construction with the valid key ok_field fails with MetadataError
(with an empty error list), and a non-string key fails with AttributeError
from calling isidentifier on a non-string, not with an identifier error. -/
theorem metadata_construction_always_fails :
    pyIsIdentifier "ok_field" = true ∧
    metadata_init (some [(.str "ok_field", .int 1)]) =
      Except.error (.metadataError
        ("Some metadata keys are not strings and valid Python identifiers." ++
          "Metadata key errors: .")) ∧
    metadata_init (some [(.int 123, .str "v")]) =
      Except.error (.attributeError "int object has no attribute isidentifier") :=
  ⟨rfl, rfl, rfl⟩

/-- C2: the claim says RatingScale construction from Scenario A data
succeeds.  In the code, the class body of RatingScale re-declares
_post_init_setup as an abstract method, so the class is abstract and every
construction raises TypeError - even though the Scenario A data itself
passes element validation. -/
theorem rating_scale_scenario_a_construction_fails :
    ratingScale_init (some scenarioAData) =
      Except.error (abstractClassError "RatingScale" ["_post_init_setup"]) ∧
    ratingScale_validate_data scenarioAData = Except.ok () :=
  ⟨rfl, rfl⟩

/-- C3: the claim says one-dimensional construction succeeds exactly when
the scale grades equal the required grades.  In the code, construction
never succeeds: the defining module imports the nonexistent name RatingMap
and fails at import time, and even past the import the rating-scale
normalization step (RatingScale construction) raises the abstract-class
TypeError.  The exact-match grade validation is unreachable. -/
theorem one_dimensional_exact_match_construction_fails :
    oneDimensionalImportOk = false ∧
    oneDimensional_init ⟨[.str "A", .str "B"], []⟩
      (some [(.str "A", .float (1/10)), (.str "B", .float (1/5))]) (some []) =
      Except.error (.importError oneDimImportErrorMsg) ∧
    ratingScale_init (some [(.str "A", .float (1/10)), (.str "B", .float (1/5))]) =
      Except.error (abstractClassError "RatingScale" ["_post_init_setup"]) :=
  ⟨rfl, rfl, rfl⟩

/-- C4: the claim says from_dict applied to to_dict output reconstructs an
equal instance.  In the code, reconstruction never returns an instance:
both concrete rating-system modules fail at import time (nonexistent names
RatingMap and PDLGDRatingSystemConfig), and past the imports the container
constructors always raise; moreover BaseRatingSystem defines no __eq__, so
rating-system equality is object identity. -/
theorem round_trip_never_reconstructs (config : RatingSystemConfig) (s : OneDimSystem)
    (t : PDLGDSystemObj) :
    oneDimensional_from_dict config (oneDimensional_to_dict s) =
      Except.error (.importError oneDimImportErrorMsg) ∧
    pdlgd_from_dict (pdlgd_to_dict t) =
      Except.error (.importError twoDimImportErrorMsg) :=
  ⟨rfl, rfl⟩

/-- Writing through the fresh cell allocated at the end of the store does
not change any previously existing cell. -/
theorem storeRead_write_fresh (l : DictStore) (x d : PyDict) :
    ∀ m, m < l.length → storeRead (storeWrite (l ++ [x]) l.length d) m = storeRead l m := by
  induction l with
  | nil => intro m hm; exact absurd hm (Nat.not_lt_zero m)
  | cons hd tl ih =>
    intro m hm
    cases m with
    | zero => rfl
    | succ m => exact ih m (Nat.lt_of_succ_lt_succ hm)

/-- C5: on any frozen container (the state any completed __init__ leaves
behind), attribute assignment raises the immutable-container
AttributeError; and to_dict returns a freshly allocated dict, so mutating
the returned dict never changes the dict owned by the container. -/
theorem frozen_container_setattr_and_to_dict_copy (c : Container) (h : c.frozen = true)
    (name : String) (value : PyVal) (st : DictStore) (hc : HeapContainer)
    (ha : hc.dataAddr < st.length) :
    immutableMapping_setattr c name value =
      .raised (.attributeError (containerClassName c.cls ++
        " objects are immutable. Use add() or similar methods to create a new instance.")) ∧
    (container_to_dict st hc).2 ≠ hc.dataAddr ∧
    ∀ d : PyDict,
      storeRead (storeWrite (container_to_dict st hc).1 (container_to_dict st hc).2 d)
        hc.dataAddr = storeRead st hc.dataAddr := by
  refine ⟨?_, ?_, ?_⟩
  · simp [immutableMapping_setattr, h]
  · exact Nat.ne_of_gt ha
  · intro d
    exact storeRead_write_fresh st (storeRead st hc.dataAddr) d hc.dataAddr ha

/-- A frozen RatingScale container together with a one-cell store holding
its data, for the C5 witness. -/
def c5Container : Container := ⟨.ratingScaleC, [(.int 1, .float (1/100))], true⟩

/-- One-cell store for the C5 witness. -/
def c5Store : DictStore := [[(.int 1, .float (1/100))]]

/-- Heap view of the C5 witness container. -/
def c5Heap : HeapContainer := ⟨.ratingScaleC, 0, true⟩

/-- Witness for C5 at a concrete frozen container and store. -/
theorem frozen_container_setattr_and_to_dict_copy_witness :
    c5Container.frozen = true ∧ c5Heap.dataAddr < c5Store.length ∧
    immutableMapping_setattr c5Container "new_attr" (.str "x") =
      .raised (.attributeError (containerClassName c5Container.cls ++
        " objects are immutable. Use add() or similar methods to create a new instance.")) ∧
    (container_to_dict c5Store c5Heap).2 ≠ c5Heap.dataAddr ∧
    storeRead (storeWrite (container_to_dict c5Store c5Heap).1
      (container_to_dict c5Store c5Heap).2 []) c5Heap.dataAddr =
      storeRead c5Store c5Heap.dataAddr := by
  have h := frozen_container_setattr_and_to_dict_copy c5Container rfl "new_attr"
    (.str "x") c5Store c5Heap (by decide)
  exact ⟨rfl, by decide, h.1, h.2.1, h.2.2 []⟩

/-- A rating-system instance state used to exhibit that attribute
assignment on rating systems succeeds. -/
def exampleOneDimSystem : OneDimSystem :=
  ⟨⟨.ratingScaleC, [(.str "A", .float (1/10))], true⟩, ⟨.metadataC, [], true⟩⟩

/-- C6 counterexample: reassigning the rating_scale attribute through a
rating-system instance succeeds (the outcome is an assignment, not a
raised error), contradicting the claim that no attribute of the instance
can be reassigned once construction is complete. -/
theorem rating_system_setattr_succeeds_counterexample :
    ratingSystem_setattr exampleOneDimSystem "rating_scale" (.str "clobbered") =
      SetattrOutcome.assigned "rating_scale" (.str "clobbered") := rfl

/-- C6 amended: rating-system instances have no attribute-assignment guard
(no class in the rating-system hierarchy overrides __setattr__), so every
attribute assignment through the instance succeeds; only the owned
containers reject attribute assignment once frozen. -/
theorem rating_system_no_setattr_guard (s : OneDimSystem) (name : String) (value : PyVal)
    (cls : ContainerClass) (d : PyDict) :
    ratingSystem_setattr s name value = SetattrOutcome.assigned name value ∧
    immutableMapping_setattr ⟨cls, d, true⟩ name value =
      SetattrOutcome.raised (.attributeError (containerClassName cls ++
        " objects are immutable. Use add() or similar methods to create a new instance.")) :=
  ⟨rfl, by simp [immutableMapping_setattr]⟩

/-- C7: get_expected_loss multiplies the PD value, the LGD value and the
exposure at default (default 1.0), raises KeyError when either grade is
absent from its scale, and on the Scenario C scales gives
expected_loss(1, A, 1000000) = 1000. -/
theorem expected_loss_formula (s : PDLGDScales) (pd_rating lgd_rating g : PyVal)
    (a b ead : ℚ)
    (ha : scaleGet s.pd_rating_scale pd_rating = Except.ok a)
    (hb : scaleGet s.lgd_rating_scale lgd_rating = Except.ok b) :
    get_expected_loss s pd_rating lgd_rating ead = Except.ok (a * b * ead) ∧
    get_expected_loss_default s pd_rating lgd_rating = Except.ok (a * b * 1) ∧
    (scaleFind s.pd_rating_scale g = Option.none →
      get_expected_loss s g lgd_rating ead = Except.error (.keyError g)) ∧
    (scaleFind s.lgd_rating_scale g = Option.none →
      get_expected_loss s pd_rating g ead = Except.error (.keyError g)) ∧
    get_expected_loss scenarioC (.int 1) (.str "A") 1000000 = Except.ok 1000 := by
  refine ⟨?_, ?_, ?_, ?_, ?_⟩
  · simp [get_expected_loss, ha, hb]
  · simp [get_expected_loss_default, get_expected_loss, ha, hb]
  · intro hg
    simp [get_expected_loss, scaleGet, hg]
  · intro hg
    unfold get_expected_loss
    rw [ha]
    simp only [scaleGet, hg]
  · have h1 : scaleGet scenarioC.pd_rating_scale (PyVal.int 1) = Except.ok (1/100) := rfl
    have h2 : scaleGet scenarioC.lgd_rating_scale (PyVal.str "A") = Except.ok (1/10) := rfl
    simp only [get_expected_loss, h1, h2]
    norm_num

/-- Witness for C7 on the Scenario C scales: the lookups succeed, the
expected loss at exposure 1000000 is 0.01 * 0.1 * 1000000, and an absent
LGD grade gives KeyError. -/
theorem expected_loss_formula_witness :
    scaleGet scenarioC.pd_rating_scale (PyVal.int 1) = Except.ok (1/100) ∧
    scaleGet scenarioC.lgd_rating_scale (PyVal.str "A") = Except.ok (1/10) ∧
    get_expected_loss scenarioC (PyVal.int 1) (PyVal.str "A") 1000000 =
      Except.ok ((1/100) * (1/10) * 1000000) ∧
    get_expected_loss scenarioC (PyVal.int 1) (PyVal.str "C") 1000000 =
      Except.error (PyError.keyError (PyVal.str "C")) := by
  have h := expected_loss_formula scenarioC (.int 1) (.str "A") (.str "C") (1/100) (1/10)
    1000000 rfl rfl
  exact ⟨rfl, rfl, h.1, h.2.2.2.1 rfl⟩

/-- C8: the claim says invalid elements produce a single error reporting
all offending grades and values.  In the code, construction with a float
grade raises the abstract-class TypeError before validation can run, and
the validation function itself, taken on its own, raises the TypeError
produced by joining a list that contains a list - a constant message that
names none of the offending elements - while fully valid data does pass
the validation function. -/
theorem rating_scale_element_error_reporting_broken :
    ratingScale_init (some floatGradeData) =
      Except.error (abstractClassError "RatingScale" ["_post_init_setup"]) ∧
    ratingScale_validate_data floatGradeData = Except.error (.typeError joinTypeErrorMsg) ∧
    ratingScale_grade_errors floatGradeData = [.float (3/2)] ∧
    ratingScale_validate_data [(.int 1, .float (1/100)), (.str "A", .float (1/10))] =
      Except.ok () :=
  ⟨rfl, rfl, rfl, rfl⟩

/-- The Python dict comparison is symmetric. -/
theorem pyDictEq_comm (d1 d2 : PyDict) : pyDictEq d1 d2 = pyDictEq d2 d1 :=
  Bool.and_comm _ _

/-- C9: two containers compare equal exactly when their concrete classes
coincide and their key-value pairs match, and the comparison is symmetric;
the two instantiable container classes are siblings, so the isinstance
check in __eq__ amounts to a same-class check. -/
theorem container_eq_same_class_and_data (a b : Container) :
    (immutableMapping_eq a b = true ↔ a.cls = b.cls ∧ pyDictEq a.data b.data = true) ∧
    immutableMapping_eq a b = immutableMapping_eq b a := by
  obtain ⟨acls, adata, afrozen⟩ := a
  obtain ⟨bcls, bdata, bfrozen⟩ := b
  by_cases h : bcls = acls
  · subst h
    constructor
    · simp [immutableMapping_eq, containerIsInstanceOf]
    · simp only [immutableMapping_eq, containerIsInstanceOf]
      simp [pyDictEq_comm adata bdata]
  · have h2 : ¬ acls = bcls := fun e => h e.symm
    constructor
    · simp [immutableMapping_eq, containerIsInstanceOf, h, h2]
    · simp [immutableMapping_eq, containerIsInstanceOf, h, h2]

/-- C10: the element validation of RatingScale records no grade error for
boolean grades (bool is a subclass of int, and the grade check is an
isinstance test against str and int), so boolean grades with float values
pass validation entirely; by contrast every int or bool value is recorded
as a value error, because only exact floats pass the value check. -/
theorem bool_grades_pass_value_check_strict (data : PyDict)
    (hk : ∀ kv ∈ data, ∃ bgrade : Bool, kv.1 = PyVal.bool bgrade)
    (hv : ∀ kv ∈ data, ∃ q : ℚ, kv.2 = PyVal.float q) :
    ratingScale_grade_errors data = [] ∧
    ratingScale_validate_data data = Except.ok () ∧
    ∀ d2 : PyDict, ∀ kv ∈ d2,
      ((∃ n : Int, kv.2 = PyVal.int n) ∨ (∃ bval : Bool, kv.2 = PyVal.bool bval)) →
      kv.2 ∈ ratingScale_value_errors d2 := by
  have hge : ratingScale_grade_errors data = [] := by
    unfold ratingScale_grade_errors
    have hfil : data.filter (fun kv => !isInstStrOrInt kv.1) = [] := by
      rw [List.filter_eq_nil_iff]
      intro kv hkv
      obtain ⟨bg, hbg⟩ := hk kv hkv
      simp [hbg, isInstStrOrInt]
    rw [hfil]
    rfl
  have hve : ratingScale_value_errors data = [] := by
    unfold ratingScale_value_errors
    have hfil : data.filter (fun kv => !isInstFloat kv.2) = [] := by
      rw [List.filter_eq_nil_iff]
      intro kv hkv
      obtain ⟨q, hq⟩ := hv kv hkv
      simp [hq, isInstFloat]
    rw [hfil]
    rfl
  refine ⟨hge, ?_, ?_⟩
  · unfold ratingScale_validate_data
    rw [hge, hve]
    rfl
  · intro d2 kv hkv hval
    unfold ratingScale_value_errors
    refine List.mem_map.mpr ⟨kv, List.mem_filter.mpr ⟨hkv, ?_⟩, rfl⟩
    rcases hval with ⟨n, hn⟩ | ⟨bv, hb⟩
    · simp [hn, isInstFloat]
    · simp [hb, isInstFloat]

/-- Concrete mapping for the C10 witness: the key is the boolean True and
the value is the float 0.1. -/
def boolGradeData : PyDict := [(PyVal.bool true, PyVal.float (1/10))]

/-- Witness for C10 at a concrete mapping with a boolean grade. -/
theorem bool_grades_pass_value_check_strict_witness :
    ((∀ kv ∈ boolGradeData, ∃ bgrade : Bool, kv.1 = PyVal.bool bgrade) ∧
      (∀ kv ∈ boolGradeData, ∃ q : ℚ, kv.2 = PyVal.float q)) ∧
    (ratingScale_grade_errors boolGradeData = [] ∧
      ratingScale_validate_data boolGradeData = Except.ok () ∧
      ∀ d2 : PyDict, ∀ kv ∈ d2,
        ((∃ n : Int, kv.2 = PyVal.int n) ∨ (∃ bval : Bool, kv.2 = PyVal.bool bval)) →
        kv.2 ∈ ratingScale_value_errors d2) := by
  have hk : ∀ kv ∈ boolGradeData, ∃ bgrade : Bool, kv.1 = PyVal.bool bgrade := by
    intro kv hkv
    unfold boolGradeData at hkv
    rw [List.mem_singleton] at hkv
    subst hkv
    exact ⟨true, rfl⟩
  have hv : ∀ kv ∈ boolGradeData, ∃ q : ℚ, kv.2 = PyVal.float q := by
    intro kv hkv
    unfold boolGradeData at hkv
    rw [List.mem_singleton] at hkv
    subst hkv
    exact ⟨1/10, rfl⟩
  exact ⟨⟨hk, hv⟩, bool_grades_pass_value_check_strict boolGradeData hk hv⟩

end CreditRiskRating
